import Mathlib

/-!
Verification development for the Stripe intermediary HTTP service
(src/server.js). The service exposes three relevant endpoints: key
retrieval (GET /stripe-key), payment-intent creation
(POST /create-payment-intent) and webhook handling (POST /webhook),
plus a body-parsing dispatch middleware. The external payment
processor SDK is an opaque collaborator and is abstracted as a
parameter; everything else is translated from the source.
-/

set_option autoImplicit false

namespace StripeServer

mutual

/-- JavaScript values as they occur in request bodies: the scalar shapes
plus arrays, which is what the handlers in server.js inspect. -/
inductive JSValue where
  | undefined
  | null
  | boolean (b : Bool)
  | number (n : Int)
  | nan
  | str (s : String)
  | array (elems : JSList)

/-- A list of JavaScript values, mutually defined with JSValue so that
recursion over arrays stays structural. -/
inductive JSList where
  | nil
  | cons (head : JSValue) (tail : JSList)

end

/-- JavaScript truthiness: undefined, null, false, 0, NaN and the empty
string are falsy; every other value (arrays included) is truthy. -/
def JSValue.truthy : JSValue → Bool
  | .undefined => false
  | .null => false
  | .boolean b => b
  | .number n => n != 0
  | .nan => false
  | .str s => s != ""
  | .array _ => true

/-- Whether the value is the JavaScript undefined (an absent body field). -/
def JSValue.isUndefined : JSValue → Bool
  | .undefined => true
  | _ => false

mutual

/-- JavaScript ToString coercion, as applied by parseInt and by RegExp
test on a non-string argument. -/
def JSValue.toJSString : JSValue → String
  | .undefined => "undefined"
  | .null => "null"
  | .boolean true => "true"
  | .boolean false => "false"
  | .number n => toString n
  | .nan => "NaN"
  | .str s => s
  | .array l => jsArrayJoin l

/-- Array.prototype.toString joins element strings with commas. -/
def jsArrayJoin : JSList → String
  | .nil => ""
  | .cons v .nil => jsArrayElemString v
  | .cons v rest => jsArrayElemString v ++ "," ++ jsArrayJoin rest

/-- Element rendering used by the array join: null and undefined render
as empty strings, every other element by its ToString coercion. -/
def jsArrayElemString : JSValue → String
  | .undefined => ""
  | .null => ""
  | .boolean true => "true"
  | .boolean false => "false"
  | .number n => toString n
  | .nan => "NaN"
  | .str s => s
  | .array l => jsArrayJoin l

end

/-- The JavaScript logical-or idiom value || fallback used throughout the
handler for optional body fields. -/
def jsOr (v fallback : JSValue) : JSValue :=
  if v.truthy then v else fallback

/-- Hex digit test for the parseInt 0x prefix. -/
def isHexDigitJS (c : Char) : Bool :=
  c.isDigit || (97 ≤ c.toNat && c.toNat ≤ 102) || (65 ≤ c.toNat && c.toNat ≤ 70)

/-- Numeric value of a hex digit. -/
def hexDigitVal (c : Char) : Nat :=
  if c.isDigit then c.toNat - 48
  else if 97 ≤ c.toNat then c.toNat - 87
  else c.toNat - 55

/-- Accumulate a decimal digit string into a natural number. -/
def foldDecDigits (ds : List Char) : Nat :=
  ds.foldl (fun a c => a * 10 + (c.toNat - 48)) 0

/-- Accumulate a hex digit string into a natural number. -/
def foldHexDigits (ds : List Char) : Nat :=
  ds.foldl (fun a c => a * 16 + hexDigitVal c) 0

/-- JavaScript parseInt on a string: skip leading whitespace, take an
optional sign, auto-detect a 0x hex prefix, consume the maximal digit
prefix, and return NaN (here none) when no digit was consumed. -/
def parseIntJS (s : String) : Option Int :=
  let cs := s.data.dropWhile (fun c => c.isWhitespace)
  let signed : Int × List Char :=
    match cs with
    | '-' :: rest => (-1, rest)
    | '+' :: rest => (1, rest)
    | _ => (1, cs)
  match signed.2 with
  | '0' :: c :: rest =>
    if c = 'x' || c = 'X' then
      let ds := rest.takeWhile isHexDigitJS
      if ds.isEmpty then none else some (signed.1 * (foldHexDigits ds : Int))
    else
      let ds := (signed.2).takeWhile (fun d => d.isDigit)
      if ds.isEmpty then none else some (signed.1 * (foldDecDigits ds : Int))
  | _ =>
    let ds := (signed.2).takeWhile (fun d => d.isDigit)
    if ds.isEmpty then none else some (signed.1 * (foldDecDigits ds : Int))

/-- Character class of the email pattern: anything but whitespace and @. -/
def emailClassChar (c : Char) : Bool :=
  !c.isWhitespace && c != '@'

/-- Split a character list into the groups delimited by the characters
satisfying p; always returns at least one (possibly empty) group. -/
def splitOnChar (p : Char → Bool) : List Char → List (List Char)
  | [] => [[]]
  | c :: rest =>
    let r := splitOnChar p rest
    if p c then [] :: r
    else
      match r with
      | [] => [[c]]
      | g :: gs => (c :: g) :: gs

/-- The anchored email test of server.js, a full match of
one-or-more class chars, @, one-or-more class chars, a literal dot,
one-or-more class chars. Since @ is excluded from the class, the string
splits at its unique @; the domain part matches exactly when it is all
class chars and has a dot that is neither first nor last. -/
def emailTest (s : String) : Bool :=
  match splitOnChar (fun c => c = '@') s.data with
  | [localPart, domainPart] =>
    !localPart.isEmpty && localPart.all emailClassChar &&
    domainPart.all emailClassChar &&
    ((domainPart.drop 1).dropLast.contains '.')
  | _ => false

/-- Lowercasing as performed by String.prototype.toLowerCase, character
by character (the basic latin range, which is all the allow-list
comparison can distinguish). -/
def lowerJS (s : String) : String :=
  ⟨s.data.map Char.toLower⟩

/-- String.prototype.toLowerCase as invoked on req.body.currency: defined
on strings; on any other value the property access throws a TypeError,
which the surrounding try/catch turns into the generic error response. -/
def JSValue.toLowerCaseJS : JSValue → Except String String
  | .str s => .ok (lowerJS s)
  | _ => .error "req.body.currency.toLowerCase is not a function"

/-- The JSON request body of POST /create-payment-intent, with the fields
the handler reads; an absent field is JSValue.undefined. -/
structure PaymentBody where
  amount : JSValue := .undefined
  currency : JSValue := .undefined
  email : JSValue := .undefined
  name : JSValue := .undefined
  request_three_d_secure : JSValue := .undefined
  payment_method_types : JSValue := .undefined

/-- Dynamic field access req.body[field] for the modelled fields. -/
def PaymentBody.get (b : PaymentBody) : String → JSValue
  | "amount" => b.amount
  | "currency" => b.currency
  | "email" => b.email
  | "name" => b.name
  | "request_three_d_secure" => b.request_three_d_secure
  | "payment_method_types" => b.payment_method_types
  | _ => .undefined

/-- The modelled field names, used to render Object.keys(req.body). -/
def allBodyFields : List String :=
  ["amount", "currency", "email", "name", "request_three_d_secure",
   "payment_method_types"]

/-- Object.keys(req.body): the fields actually present in the body. -/
def PaymentBody.keys (b : PaymentBody) : List String :=
  allBodyFields.filter (fun f => !(b.get f).isUndefined)

/-- The required-field list of the handler. -/
def requiredFields : List String := ["amount", "currency", "email"]

/-- The currency allow-list of the handler. -/
def validCurrencies : List String := ["usd", "eur", "gbp", "mxn"]

/-- Arguments of stripe.customers.create as built by the handler. -/
structure CustomerParams where
  name : JSValue
  email : JSValue

/-- The customer record returned by the processor; only the opaque id is
consumed by the handler. -/
structure Customer where
  id : String

/-- Arguments of stripe.paymentIntents.create as built by the handler. -/
structure PaymentIntentParams where
  amount : Int
  currency : String
  customer : String
  request_three_d_secure : JSValue
  payment_method_types : JSValue
  metadata_customer_email : JSValue
  metadata_customer_name : JSValue

/-- The payment-intent record returned by the processor, restricted to the
fields the handler reads when shaping its response. -/
structure PaymentIntent where
  id : String
  client_secret : String
  amount : Int
  currency : String
  status : String

/-- Errors surfaced by the processor SDK: a type tag string (compared
against the Stripe error class names), a message and an optional code. -/
structure StripeError where
  type : String
  message : String
  code : String := ""

/-- The opaque external payment processor: the two outbound calls the
handler awaits, each able to fail with a StripeError. -/
structure StripeProcessor where
  createCustomer : CustomerParams → Except StripeError Customer
  createPaymentIntent : PaymentIntentParams → Except StripeError PaymentIntent

/-- The distinct response shapes the /create-payment-intent handler can
produce, one constructor per return site in server.js. -/
inductive CPIOutcome where
  | missingFieldsResp (missing : List String) (received : List String)
  | invalidAmountResp
  | invalidCurrencyResp
  | invalidEmailResp
  | success (clientSecret : String) (id : String) (amount : Int)
      (currency : String) (status : String)
  | cardErrorResp (message : String) (code : String)
  | invalidRequestResp (message : String)
  | apiErrorResp
  | connectionErrorResp
  | authErrorResp
  | genericErrorResp (message : String)
deriving DecidableEq

/-- HTTP status code of each response shape, as set by server.js. -/
def CPIOutcome.status : CPIOutcome → Nat
  | .missingFieldsResp _ _ => 400
  | .invalidAmountResp => 400
  | .invalidCurrencyResp => 400
  | .invalidEmailResp => 400
  | .success _ _ _ _ _ => 200
  | .cardErrorResp _ _ => 400
  | .invalidRequestResp _ => 400
  | .apiErrorResp => 500
  | .connectionErrorResp => 500
  | .authErrorResp => 500
  | .genericErrorResp _ => 500

/-- The error field of the JSON body of each response shape. -/
def CPIOutcome.errorField : CPIOutcome → Option String
  | .missingFieldsResp m _ =>
      some ("Faltan campos requeridos: " ++ String.intercalate ", " m)
  | .invalidAmountResp => some "El amount debe ser un número positivo"
  | .invalidCurrencyResp =>
      some ("Currency debe ser una de: " ++ String.intercalate ", " validCurrencies)
  | .invalidEmailResp => some "Email inválido"
  | .success _ _ _ _ _ => none
  | .cardErrorResp _ _ => some "Error de tarjeta"
  | .invalidRequestResp _ => some "Petición inválida a Stripe"
  | .apiErrorResp => some "Error de API de Stripe"
  | .connectionErrorResp => some "Error de conexión con Stripe"
  | .authErrorResp => some "Error de autenticación con Stripe"
  | .genericErrorResp _ => some "Error interno del servidor"

/-- The list of fields named in a missing-required-fields response. -/
def CPIOutcome.missingListed : CPIOutcome → List String
  | .missingFieldsResp m _ => m
  | _ => []

/-- Whether the outcome is the missing-required-fields response. -/
def CPIOutcome.isMissingFieldsResp : CPIOutcome → Bool
  | .missingFieldsResp _ _ => true
  | _ => false

/-- The catch block of the handler: classify a processor error by its
type tag, mirroring the if-chain over the Stripe error class names, with
the unclassified fallback using message || fallback text. -/
def stripeErrorOutcome (e : StripeError) : CPIOutcome :=
  if e.type = "StripeCardError" then .cardErrorResp e.message e.code
  else if e.type = "StripeInvalidRequestError" then .invalidRequestResp e.message
  else if e.type = "StripeAPIError" then .apiErrorResp
  else if e.type = "StripeConnectionError" then .connectionErrorResp
  else if e.type = "StripeAuthenticationError" then .authErrorResp
  else .genericErrorResp (if e.message = "" then "Error desconocido" else e.message)

/-- Index of the error category recognised by the catch block if-chain,
in source order; 5 is the unclassified fallback. -/
def stripeErrorCategory (t : String) : Nat :=
  if t = "StripeCardError" then 0
  else if t = "StripeInvalidRequestError" then 1
  else if t = "StripeAPIError" then 2
  else if t = "StripeConnectionError" then 3
  else if t = "StripeAuthenticationError" then 4
  else 5

/-- A run of the /create-payment-intent handler: the HTTP outcome plus
the outbound processor calls it performed, in order. -/
structure CPIRun where
  outcome : CPIOutcome
  customerCalls : List CustomerParams
  paymentIntentCalls : List PaymentIntentParams

/-- Customer-creation arguments built from the body (name defaulted via
the || idiom). -/
def customerParams (body : PaymentBody) : CustomerParams :=
  { name := jsOr body.name (.str "Cliente no proporcionado")
    email := body.email }

/-- Payment-intent arguments built from the body, the parsed amount, the
lowercased currency and the created customer id. -/
def paymentIntentParams (body : PaymentBody) (amount : Int)
    (currencyLower : String) (customerId : String) : PaymentIntentParams :=
  { amount := amount
    currency := currencyLower
    customer := customerId
    request_three_d_secure := jsOr body.request_three_d_secure (.str "automatic")
    payment_method_types := jsOr body.payment_method_types (.array (.cons (.str "card") .nil))
    metadata_customer_email := body.email
    metadata_customer_name := jsOr body.name (.str "No proporcionado") }

/-- The processor-call section of the handler (lines 122-162 of
server.js): create the customer, then the payment intent, shaping the
success response from the returned intent and routing any thrown
StripeError to the catch block. -/
def afterValidation (stripe : StripeProcessor) (body : PaymentBody)
    (amount : Int) (currencyLower : String) : CPIRun :=
  match stripe.createCustomer (customerParams body) with
  | .error e =>
    { outcome := stripeErrorOutcome e
      customerCalls := [customerParams body]
      paymentIntentCalls := [] }
  | .ok customer =>
    match stripe.createPaymentIntent
        (paymentIntentParams body amount currencyLower customer.id) with
    | .error e =>
      { outcome := stripeErrorOutcome e
        customerCalls := [customerParams body]
        paymentIntentCalls := [paymentIntentParams body amount currencyLower customer.id] }
    | .ok pi =>
      { outcome := .success pi.client_secret pi.id pi.amount pi.currency pi.status
        customerCalls := [customerParams body]
        paymentIntentCalls := [paymentIntentParams body amount currencyLower customer.id] }

/-- The POST /create-payment-intent handler: required-field check via
truthiness, parseInt amount check, currency allow-list check (after
toLowerCase, whose TypeError on non-strings lands in the catch block),
email pattern check, then the two processor calls. -/
def createPaymentIntentHandler (stripe : StripeProcessor)
    (body : PaymentBody) : CPIRun :=
  let missing := requiredFields.filter (fun f => !(body.get f).truthy)
  if missing.length > 0 then
    { outcome := .missingFieldsResp missing body.keys
      customerCalls := [], paymentIntentCalls := [] }
  else
    match parseIntJS body.amount.toJSString with
    | none =>
      { outcome := .invalidAmountResp, customerCalls := [], paymentIntentCalls := [] }
    | some amount =>
      if amount ≤ 0 then
        { outcome := .invalidAmountResp, customerCalls := [], paymentIntentCalls := [] }
      else
        match body.currency.toLowerCaseJS with
        | .error m =>
          { outcome := .genericErrorResp m, customerCalls := [], paymentIntentCalls := [] }
        | .ok currencyLower =>
          if validCurrencies.contains currencyLower = false then
            { outcome := .invalidCurrencyResp
              customerCalls := [], paymentIntentCalls := [] }
          else if emailTest body.email.toJSString = false then
            { outcome := .invalidEmailResp
              customerCalls := [], paymentIntentCalls := [] }
          else
            afterValidation stripe body amount currencyLower

/-- A webhook event as consumed by the handler: its type tag and the id
of the nested data object (the remaining payload is only logged). -/
structure WebhookEvent where
  type : String
  objectId : String
deriving DecidableEq

/-- Which switch branch of the webhook handler an event type reaches. -/
inductive WebhookBranch where
  | paymentSucceeded
  | paymentFailed
  | paymentCreated
  | unhandled
deriving DecidableEq

/-- The switch on event.type in the webhook handler; unrecognised types
fall to the default branch. -/
def dispatchEvent (t : String) : WebhookBranch :=
  if t = "payment_intent.succeeded" then .paymentSucceeded
  else if t = "payment_intent.payment_failed" then .paymentFailed
  else if t = "payment_intent.created" then .paymentCreated
  else .unhandled

/-- A run of the POST /webhook handler: status code, plaintext body of
the error reply when present, and the switch branch reached (none when
verification failed before the switch). -/
structure WebhookRun where
  status : Nat
  body : Option String
  handled : Option WebhookBranch
deriving DecidableEq

/-- The POST /webhook handler. Signature verification is the opaque
constructEvent of the processor SDK, received here as a function of the
raw body bytes, the stripe-signature header and the webhook secret; on
its failure the handler replies 400 with the reason and never reaches
the event switch, on success it dispatches and replies 200. -/
def webhookHandler
    (constructEvent : List Nat → Option String → String → Except String WebhookEvent)
    (rawBody : List Nat) (sigHeader : Option String)
    (webhookSecret : String) : WebhookRun :=
  match constructEvent rawBody sigHeader webhookSecret with
  | .error msg =>
    { status := 400, body := some ("Webhook Error: " ++ msg), handled := none }
  | .ok event =>
    { status := 200, body := none, handled := some (dispatchEvent event.type) }

/-- The response shapes of GET /stripe-key. -/
inductive StripeKeyResult where
  | configError
  | keyJson (publishableKey : String)
deriving DecidableEq

/-- Status code of each GET /stripe-key response shape. -/
def StripeKeyResult.status : StripeKeyResult → Nat
  | .configError => 500
  | .keyJson _ => 200

/-- The GET /stripe-key handler: a falsy (empty) configured key yields
the 500 configuration error, otherwise the key is returned as JSON. -/
def stripeKeyHandler (stripePublishableKey : String) : StripeKeyResult :=
  if stripePublishableKey = "" then .configError
  else .keyJson stripePublishableKey

/-- The two body-parsing modes handed out by the dispatch middleware. -/
inductive BodyParseMode where
  | raw
  | json
deriving DecidableEq

/-- The body-parsing dispatch middleware: requests whose originalUrl is
/webhook get the raw byte parser, every other request gets the JSON
parser. -/
def bodyParsingDispatch (originalUrl : String) : BodyParseMode :=
  if originalUrl = "/webhook" then .raw else .json

/-- Modelled from the spec: the published contract of the external
processor for paymentIntents.create, which server.js relies on when it
shapes its success response from the returned intent — the created
intent echoes the requested amount and currency and carries a non-empty
id and client secret. The SDK itself is not part of this repository. -/
def ProcessorEchoes (stripe : StripeProcessor) : Prop :=
  ∀ p pi, stripe.createPaymentIntent p = .ok pi →
    pi.amount = p.amount ∧ pi.currency = p.currency ∧
    pi.client_secret ≠ "" ∧ pi.id ≠ ""

/-- Modelled from the spec: a concrete processor conforming to the
published contract, echoing requested fields under fixed fresh ids; used
to instantiate theorems at concrete inputs. -/
def idealStripe : StripeProcessor :=
  { createCustomer := fun _ => .ok { id := "cus_test_1" }
    createPaymentIntent := fun p =>
      .ok { id := "pi_test_1"
            client_secret := "pi_test_1_secret_x"
            amount := p.amount
            currency := p.currency
            status := "requires_payment_method" } }

/-- A signature verifier that rejects every request, for instantiating
the webhook theorems. -/
def alwaysFailVerify :
    List Nat → Option String → String → Except String WebhookEvent :=
  fun _ _ _ =>
    .error "No signatures found matching the expected signature for payload"

/-- A signature verifier that accepts every request as an event of a
type the switch does not handle, for instantiating the webhook theorems. -/
def unhandledTypeVerify :
    List Nat → Option String → String → Except String WebhookEvent :=
  fun _ _ _ => .ok { type := "charge.refunded", objectId := "ch_1" }

/-- Body supplying only amount, with the falsy value 0. -/
def bodyAmountZeroOnly : PaymentBody := { amount := JSValue.number 0 }

/-- Body supplying all required fields, amount being the falsy 0. -/
def bodyAmountZeroFull : PaymentBody :=
  { amount := JSValue.number 0
    currency := JSValue.str "usd"
    email := JSValue.str "a@b.com" }

/-- Body supplying all required fields with a non-numeric amount. -/
def bodyBadAmount : PaymentBody :=
  { amount := JSValue.str "abc"
    currency := JSValue.str "usd"
    email := JSValue.str "a@b.com" }

/-- Body supplying all required fields with a currency outside the
allow-list. -/
def bodyBadCurrency : PaymentBody :=
  { amount := JSValue.number 500
    currency := JSValue.str "JPY"
    email := JSValue.str "a@b.com" }

/-- Valid body whose currency is spelled in upper case. -/
def bodyUpperCurrency : PaymentBody :=
  { amount := JSValue.number 1000
    currency := JSValue.str "USD"
    email := JSValue.str "a@b.com" }

/-- Valid body with a lower-case allow-listed currency. -/
def bodyValidUsd : PaymentBody :=
  { amount := JSValue.number 1000
    currency := JSValue.str "usd"
    email := JSValue.str "a@b.com" }

/-- The error message attached to each error category index. -/
def categoryErrorMsg : Nat → String
  | 0 => "Error de tarjeta"
  | 1 => "Petición inválida a Stripe"
  | 2 => "Error de API de Stripe"
  | 3 => "Error de conexión con Stripe"
  | 4 => "Error de autenticación con Stripe"
  | _ => "Error interno del servidor"

/-- An absent (undefined) field is falsy. -/
theorem JSValue.truthy_eq_false_of_isUndefined {v : JSValue}
    (h : v.isUndefined = true) : v.truthy = false := by
  cases v <;> simp_all [JSValue.isUndefined, JSValue.truthy]

/-- When every required field is truthy, the missing-field filter is
empty. -/
theorem missing_filter_nil (body : PaymentBody)
    (h : ∀ f ∈ requiredFields, (body.get f).truthy = true) :
    requiredFields.filter (fun f => !(body.get f).truthy) = [] := by
  have h1 := h "amount" (by simp [requiredFields])
  have h2 := h "currency" (by simp [requiredFields])
  have h3 := h "email" (by simp [requiredFields])
  simp [requiredFields, List.filter, h1, h2, h3]

/-- When some required field is untruthy, the handler stops at the
missing-required-fields response and performs no processor call. -/
theorem handler_missing_branch (stripe : StripeProcessor) (body : PaymentBody)
    (h : requiredFields.filter (fun f => !(body.get f).truthy) ≠ []) :
    createPaymentIntentHandler stripe body =
      { outcome := .missingFieldsResp
          (requiredFields.filter (fun f => !(body.get f).truthy)) body.keys
        customerCalls := [], paymentIntentCalls := [] } := by
  simp only [createPaymentIntentHandler]
  rw [if_pos (List.length_pos.mpr h)]

/-- With all required fields truthy, a positive parsed amount and a
string currency, the handler reduces to the currency check, the email
check and the processor-call section. -/
theorem handler_currency_stage (stripe : StripeProcessor) (body : PaymentBody)
    (s : String) (a : Int)
    (hreq : ∀ f ∈ requiredFields, (body.get f).truthy = true)
    (hamt : parseIntJS body.amount.toJSString = some a)
    (hpos : 0 < a)
    (hcur : body.currency = .str s) :
    createPaymentIntentHandler stripe body =
      (if validCurrencies.contains (lowerJS s) = false then
        { outcome := .invalidCurrencyResp
          customerCalls := [], paymentIntentCalls := [] }
      else if emailTest body.email.toJSString = false then
        { outcome := .invalidEmailResp
          customerCalls := [], paymentIntentCalls := [] }
      else afterValidation stripe body a (lowerJS s)) := by
  have hmiss := missing_filter_nil body hreq
  have hle : ¬ a ≤ 0 := not_le.mpr hpos
  simp only [createPaymentIntentHandler, hmiss, hamt, hcur,
    JSValue.toLowerCaseJS, List.length_nil, gt_iff_lt, lt_self_iff_false,
    if_false, hle]

/-- The catch block maps every error to status 400 or 500. -/
theorem stripeErrorOutcome_status (e : StripeError) :
    (stripeErrorOutcome e).status = 400 ∨ (stripeErrorOutcome e).status = 500 := by
  unfold stripeErrorOutcome
  split_ifs <;> simp [CPIOutcome.status]

/-- The error field produced by the catch block is exactly the message
of the error category of the type tag. -/
theorem stripeErrorOutcome_errorField (e : StripeError) :
    (stripeErrorOutcome e).errorField =
      some (categoryErrorMsg (stripeErrorCategory e.type)) := by
  unfold stripeErrorOutcome stripeErrorCategory
  split_ifs <;> simp [CPIOutcome.errorField, categoryErrorMsg]

/-- The catch block never produces the invalid-currency response. -/
theorem stripeErrorOutcome_ne_invalidCurrency (e : StripeError) :
    stripeErrorOutcome e ≠ CPIOutcome.invalidCurrencyResp := by
  unfold stripeErrorOutcome
  split_ifs <;> simp

/-- Error categories range over the six indices. -/
theorem stripeErrorCategory_lt (t : String) : stripeErrorCategory t < 6 := by
  unfold stripeErrorCategory
  split_ifs <;> norm_num

/-- The six category messages are pairwise distinct. -/
theorem categoryErrorMsg_inj :
    ∀ i, i < 6 → ∀ j, j < 6 → i ≠ j →
      categoryErrorMsg i ≠ categoryErrorMsg j := by
  decide

/-- The processor-call section never produces the invalid-currency
response. -/
theorem afterValidation_outcome_ne_invalidCurrency (stripe : StripeProcessor)
    (body : PaymentBody) (a : Int) (c : String) :
    (afterValidation stripe body a c).outcome ≠ CPIOutcome.invalidCurrencyResp := by
  unfold afterValidation
  split
  · simpa using stripeErrorOutcome_ne_invalidCurrency _
  · split
    · simpa using stripeErrorOutcome_ne_invalidCurrency _
    · simp

/-- C1: for every webhook request whose signature verification (over the
raw body bytes, the signature header and the webhook secret) fails, the
/webhook endpoint responds 400 carrying the failure reason and performs
no event-type dispatch or handling whatsoever. -/
theorem webhook_invalid_signature_rejected
    (constructEvent : List Nat → Option String → String → Except String WebhookEvent)
    (rawBody : List Nat) (sig : Option String) (secret : String) (msg : String)
    (h : constructEvent rawBody sig secret = .error msg) :
    webhookHandler constructEvent rawBody sig secret =
      { status := 400, body := some ("Webhook Error: " ++ msg), handled := none } := by
  unfold webhookHandler
  rw [h]

/-- C1 witness: the handler run with a concretely failing verifier. -/
theorem webhook_invalid_signature_rejected_witness :
    webhookHandler alwaysFailVerify [1, 2, 3] (some "t=1,v1=bad") "whsec_test" =
      { status := 400
        body := some ("Webhook Error: " ++
          "No signatures found matching the expected signature for payload")
        handled := none } :=
  webhook_invalid_signature_rejected alwaysFailVerify [1, 2, 3]
    (some "t=1,v1=bad") "whsec_test"
    "No signatures found matching the expected signature for payload" rfl

/-- C2: for every webhook request whose signature verification succeeds,
the /webhook endpoint responds 200, dispatching on the event type, for
every event type including those with no specific handler. -/
theorem webhook_valid_signature_acknowledged
    (constructEvent : List Nat → Option String → String → Except String WebhookEvent)
    (rawBody : List Nat) (sig : Option String) (secret : String)
    (event : WebhookEvent)
    (h : constructEvent rawBody sig secret = .ok event) :
    webhookHandler constructEvent rawBody sig secret =
      { status := 200, body := none, handled := some (dispatchEvent event.type) } := by
  unfold webhookHandler
  rw [h]

/-- C2 witness: the handler run with a verifier accepting an event type
that reaches the default branch still answers 200. -/
theorem webhook_valid_signature_acknowledged_witness :
    webhookHandler unhandledTypeVerify [9] none "whsec_test" =
      { status := 200, body := none, handled := some WebhookBranch.unhandled } := by
  have h := webhook_valid_signature_acknowledged unhandledTypeVerify [9] none
    "whsec_test" { type := "charge.refunded", objectId := "ch_1" } rfl
  rw [h]
  decide

/-- C7 counterexample: the card-failure category and the
malformed-request category are distinct categories yet are mapped to the
same status code 400, so statuses are not distinct per category. -/
theorem stripe_error_statuses_not_distinct :
    stripeErrorCategory "StripeCardError" ≠
      stripeErrorCategory "StripeInvalidRequestError" ∧
    (stripeErrorOutcome
        { type := "StripeCardError", message := "card declined"
          code := "card_declined" }).status =
      (stripeErrorOutcome
        { type := "StripeInvalidRequestError", message := "bad param" }).status := by
  decide

/-- C7 amended: every processor error is mapped by its category to an
error response with a distinct message per category; each category
yields status 400 or 500 (the statuses are not pairwise distinct) with
an error field present, so no processor error is silently swallowed. -/
theorem stripe_errors_mapped_distinct_messages (e1 e2 : StripeError)
    (h : stripeErrorCategory e1.type ≠ stripeErrorCategory e2.type) :
    (stripeErrorOutcome e1).errorField ≠ (stripeErrorOutcome e2).errorField ∧
    (∀ e : StripeError,
      ((stripeErrorOutcome e).status = 400 ∨ (stripeErrorOutcome e).status = 500) ∧
      ((stripeErrorOutcome e).errorField).isSome = true) := by
  constructor
  · rw [stripeErrorOutcome_errorField, stripeErrorOutcome_errorField]
    intro hc
    exact categoryErrorMsg_inj _ (stripeErrorCategory_lt e1.type) _
      (stripeErrorCategory_lt e2.type) h (Option.some.inj hc)
  · intro e
    refine ⟨stripeErrorOutcome_status e, ?_⟩
    rw [stripeErrorOutcome_errorField]
    rfl

/-- C7 witness: two concrete errors of distinct categories have distinct
messages and both surface as error responses. -/
theorem stripe_errors_mapped_distinct_messages_witness :
    (stripeErrorOutcome { type := "StripeAPIError", message := "m1" }).errorField ≠
      (stripeErrorOutcome { type := "StripeConnectionError", message := "m1" }).errorField :=
  (stripe_errors_mapped_distinct_messages
    { type := "StripeAPIError", message := "m1" }
    { type := "StripeConnectionError", message := "m1" } (by decide)).1

/-- C8: GET /stripe-key answers 500 when the publishable key is unset
(empty) and otherwise returns exactly the configured key as JSON. -/
theorem stripe_key_endpoint_spec (key : String) :
    (key = "" →
      stripeKeyHandler key = .configError ∧ (stripeKeyHandler key).status = 500) ∧
    (key ≠ "" →
      stripeKeyHandler key = .keyJson key ∧ (stripeKeyHandler key).status = 200) := by
  constructor
  · intro h
    subst h
    simp [stripeKeyHandler, StripeKeyResult.status]
  · intro h
    simp [stripeKeyHandler, h, StripeKeyResult.status]

/-- C8 witness: both branches of the key endpoint at concrete keys. -/
theorem stripe_key_endpoint_spec_witness :
    stripeKeyHandler "" = StripeKeyResult.configError ∧
    stripeKeyHandler "pk_test_123" = StripeKeyResult.keyJson "pk_test_123" :=
  ⟨((stripe_key_endpoint_spec "").1 rfl).1,
   ((stripe_key_endpoint_spec "pk_test_123").2 (by decide)).1⟩

/-- C9: the body-parsing dispatch hands out the raw parser exactly for
the /webhook URL; every other URL gets the JSON parser. -/
theorem body_parsing_dispatch_spec (originalUrl : String) :
    bodyParsingDispatch originalUrl = .raw ↔ originalUrl = "/webhook" := by
  unfold bodyParsingDispatch
  split_ifs with h <;> simp [h]

/-- C9 witness: the dispatch at the webhook URL and at another route. -/
theorem body_parsing_dispatch_spec_witness :
    bodyParsingDispatch "/webhook" = BodyParseMode.raw ∧
    bodyParsingDispatch "/create-payment-intent" = BodyParseMode.json := by
  refine ⟨(body_parsing_dispatch_spec "/webhook").mpr rfl, ?_⟩
  cases hc : bodyParsingDispatch "/create-payment-intent" with
  | raw =>
    exact absurd ((body_parsing_dispatch_spec "/create-payment-intent").mp hc) (by decide)
  | json => rfl

/-- The concrete conforming processor satisfies the published contract. -/
theorem idealStripe_echoes : ProcessorEchoes idealStripe := by
  intro p pi h
  cases Except.ok.inj h
  refine ⟨rfl, rfl, ?_, ?_⟩ <;> simp

/-- C3 counterexample: a body supplying amount with the falsy value 0
while currency and email are absent receives the missing-fields 400
response, and that response lists amount even though amount was
supplied. -/
theorem missing_fields_lists_supplied_field :
    (bodyAmountZeroOnly.get "currency").isUndefined = true ∧
    (bodyAmountZeroOnly.get "amount").isUndefined = false ∧
    "amount" ∈
      (createPaymentIntentHandler idealStripe bodyAmountZeroOnly).outcome.missingListed ∧
    (createPaymentIntentHandler idealStripe bodyAmountZeroOnly).outcome.status = 400 := by
  decide

/-- C3 amended: for a request missing one or more required fields, the
response is a 400 whose error message lists exactly the required fields
whose value is absent or falsy — every absent required field is listed,
and a supplied required field is listed precisely when its value is
falsy. -/
theorem missing_fields_listed_exactly_untruthy (stripe : StripeProcessor)
    (body : PaymentBody)
    (h : ∃ f ∈ requiredFields, (body.get f).isUndefined = true) :
    (createPaymentIntentHandler stripe body).outcome.status = 400 ∧
    (∀ f, f ∈ (createPaymentIntentHandler stripe body).outcome.missingListed ↔
      (f ∈ requiredFields ∧ (body.get f).truthy = false)) ∧
    (createPaymentIntentHandler stripe body).outcome.errorField =
      some ("Faltan campos requeridos: " ++ String.intercalate ", "
        ((createPaymentIntentHandler stripe body).outcome.missingListed)) := by
  obtain ⟨f0, hf0, hu⟩ := h
  have hne : requiredFields.filter (fun f => !(body.get f).truthy) ≠ [] := by
    intro hnil
    have hmem : f0 ∈ requiredFields.filter (fun f => !(body.get f).truthy) := by
      simp [List.mem_filter, hf0, JSValue.truthy_eq_false_of_isUndefined hu]
    rw [hnil] at hmem
    exact absurd hmem (List.not_mem_nil f0)
  rw [handler_missing_branch stripe body hne]
  refine ⟨rfl, ?_, rfl⟩
  intro f
  simp [CPIOutcome.missingListed, List.mem_filter]

/-- C3 amended witness: a body with absent currency and email and a
truthy amount gets exactly currency and email listed. -/
theorem missing_fields_listed_exactly_untruthy_witness :
    (createPaymentIntentHandler idealStripe
      { amount := JSValue.number 25 }).outcome.status = 400 ∧
    ("currency" ∈ (createPaymentIntentHandler idealStripe
      { amount := JSValue.number 25 }).outcome.missingListed ∧
     "amount" ∉ (createPaymentIntentHandler idealStripe
      { amount := JSValue.number 25 }).outcome.missingListed) := by
  have h := missing_fields_listed_exactly_untruthy idealStripe
    { amount := JSValue.number 25 } ⟨"currency", by decide, by decide⟩
  refine ⟨h.1, (h.2.1 "currency").mpr (by decide), ?_⟩
  intro hmem
  exact absurd ((h.2.1 "amount").mp hmem) (by decide)

/-- C10: a required field that is present but falsy is reported through
the missing-required-fields 400 response, listed as missing, rather than
through its field-specific validation error. -/
theorem falsy_field_reported_missing (stripe : StripeProcessor)
    (body : PaymentBody) (f : String)
    (hf : f ∈ requiredFields)
    (_hp : (body.get f).isUndefined = false)
    (ht : (body.get f).truthy = false) :
    (createPaymentIntentHandler stripe body).outcome.isMissingFieldsResp = true ∧
    f ∈ (createPaymentIntentHandler stripe body).outcome.missingListed ∧
    (createPaymentIntentHandler stripe body).outcome.status = 400 := by
  have hmem : f ∈ requiredFields.filter (fun g => !(body.get g).truthy) := by
    simp [List.mem_filter, hf, ht]
  have hne : requiredFields.filter (fun g => !(body.get g).truthy) ≠ [] := by
    intro hnil
    rw [hnil] at hmem
    exact absurd hmem (List.not_mem_nil f)
  rw [handler_missing_branch stripe body hne]
  exact ⟨rfl, hmem, rfl⟩

/-- C10 witness: amount supplied as 0 alongside valid currency and email
is reported as a missing field, not as a non-positive amount. -/
theorem falsy_field_reported_missing_witness :
    (createPaymentIntentHandler idealStripe
      bodyAmountZeroFull).outcome.isMissingFieldsResp = true ∧
    "amount" ∈
      (createPaymentIntentHandler idealStripe bodyAmountZeroFull).outcome.missingListed ∧
    (createPaymentIntentHandler idealStripe bodyAmountZeroFull).outcome.status = 400 ∧
    (createPaymentIntentHandler idealStripe bodyAmountZeroFull).outcome ≠
      CPIOutcome.invalidAmountResp := by
  have h := falsy_field_reported_missing idealStripe bodyAmountZeroFull "amount"
    (by decide) (by decide) (by decide)
  exact ⟨h.1, h.2.1, h.2.2, by decide⟩

/-- With all required fields truthy and an amount that is non-numeric or
non-positive, the handler stops at the invalid-amount response. -/
theorem handler_amount_invalid (stripe : StripeProcessor) (body : PaymentBody)
    (hm : requiredFields.filter (fun f => !(body.get f).truthy) = [])
    (hbad : ∀ a : Int, parseIntJS body.amount.toJSString = some a → a ≤ 0) :
    createPaymentIntentHandler stripe body =
      { outcome := .invalidAmountResp
        customerCalls := [], paymentIntentCalls := [] } := by
  simp only [createPaymentIntentHandler, hm]
  rw [if_neg (by simp)]
  cases hp : parseIntJS body.amount.toJSString with
  | none => rfl
  | some a => exact if_pos (hbad a hp)

/-- C4: a request supplying all required fields whose amount is
non-numeric or parses to a non-positive integer gets a 400 response, and
no processor call is made. -/
theorem amount_invalid_rejected (stripe : StripeProcessor) (body : PaymentBody)
    (_hpresent : ∀ f ∈ requiredFields, (body.get f).isUndefined = false)
    (hbad : ∀ a : Int, parseIntJS body.amount.toJSString = some a → a ≤ 0) :
    (createPaymentIntentHandler stripe body).outcome.status = 400 ∧
    (createPaymentIntentHandler stripe body).customerCalls = [] ∧
    (createPaymentIntentHandler stripe body).paymentIntentCalls = [] := by
  by_cases hm : requiredFields.filter (fun f => !(body.get f).truthy) = []
  · rw [handler_amount_invalid stripe body hm hbad]
    exact ⟨rfl, rfl, rfl⟩
  · rw [handler_missing_branch stripe body hm]
    exact ⟨rfl, rfl, rfl⟩

/-- C4 witness: a non-numeric amount string alongside valid currency and
email is rejected with 400 and without any processor call. -/
theorem amount_invalid_rejected_witness :
    (createPaymentIntentHandler idealStripe bodyBadAmount).outcome.status = 400 ∧
    (createPaymentIntentHandler idealStripe bodyBadAmount).customerCalls = [] ∧
    (createPaymentIntentHandler idealStripe bodyBadAmount).paymentIntentCalls = [] :=
  amount_invalid_rejected idealStripe bodyBadAmount (by decide)
    (fun a h => nomatch h)

/-- C5: once the required fields are supplied and the amount is valid, a
string currency is accepted exactly when it case-insensitively matches
the allow-list usd, eur, gbp, mxn; any other currency string yields the
invalid-currency 400 response. -/
theorem currency_allowlist_iff (stripe : StripeProcessor) (body : PaymentBody)
    (s : String) (a : Int)
    (hreq : ∀ f ∈ requiredFields, (body.get f).truthy = true)
    (hamt : parseIntJS body.amount.toJSString = some a)
    (hpos : 0 < a)
    (hcur : body.currency = .str s) :
    ((createPaymentIntentHandler stripe body).outcome = CPIOutcome.invalidCurrencyResp ↔
      validCurrencies.contains (lowerJS s) = false) ∧
    (validCurrencies.contains (lowerJS s) = false →
      (createPaymentIntentHandler stripe body).outcome.status = 400) := by
  rw [handler_currency_stage stripe body s a hreq hamt hpos hcur]
  by_cases hc : validCurrencies.contains (lowerJS s) = false
  · rw [if_pos hc]
    exact ⟨iff_of_true rfl hc, fun _ => rfl⟩
  · rw [if_neg hc]
    refine ⟨iff_of_false ?_ hc, fun hfalse => absurd hfalse hc⟩
    by_cases he : emailTest body.email.toJSString = false
    · rw [if_pos he]
      simp
    · rw [if_neg he]
      exact afterValidation_outcome_ne_invalidCurrency stripe body a (lowerJS s)

/-- C5 witness: the currency JPY is outside the allow-list and is
rejected with the invalid-currency 400 response. -/
theorem currency_allowlist_iff_witness :
    (createPaymentIntentHandler idealStripe bodyBadCurrency).outcome =
      CPIOutcome.invalidCurrencyResp ∧
    (createPaymentIntentHandler idealStripe bodyBadCurrency).outcome.status = 400 := by
  have h := currency_allowlist_iff idealStripe bodyBadCurrency "JPY" 500
    (by decide) (by decide) (by decide) rfl
  exact ⟨h.1.mpr (by decide), h.2 (by decide)⟩

/-- C6 counterexample: on the valid request with currency USD, handled
by a processor conforming to its published contract, the response
carries currency usd, not the request input USD, so the response does
not echo the input currency verbatim. -/
theorem currency_not_echoed_verbatim :
    bodyUpperCurrency.currency = JSValue.str "USD" ∧
    (createPaymentIntentHandler idealStripe bodyUpperCurrency).outcome =
      CPIOutcome.success "pi_test_1_secret_x" "pi_test_1" 1000 "usd"
        "requires_payment_method" ∧
    ("usd" : String) ≠ "USD" := by
  exact ⟨rfl, by decide, by decide⟩

/-- C6 amended: for a fully valid request whose two processor calls
succeed, with the processor fulfilling its published contract, the
response carries a non-empty client secret and non-empty id, the amount
echoes the integer-parsed input amount and the currency echoes the
lowercased input currency, with status 200. -/
theorem valid_request_success_response (stripe : StripeProcessor)
    (body : PaymentBody) (s : String) (a : Int) (cust : Customer)
    (pi : PaymentIntent)
    (hreq : ∀ f ∈ requiredFields, (body.get f).truthy = true)
    (hamt : parseIntJS body.amount.toJSString = some a)
    (hpos : 0 < a)
    (hcur : body.currency = .str s)
    (hallow : validCurrencies.contains (lowerJS s) = true)
    (hemail : emailTest body.email.toJSString = true)
    (hcust : stripe.createCustomer (customerParams body) = .ok cust)
    (hpi : stripe.createPaymentIntent
      (paymentIntentParams body a (lowerJS s) cust.id) = .ok pi)
    (hecho : ProcessorEchoes stripe) :
    (createPaymentIntentHandler stripe body).outcome =
      CPIOutcome.success pi.client_secret pi.id a (lowerJS s) pi.status ∧
    pi.client_secret ≠ "" ∧ pi.id ≠ "" ∧
    (createPaymentIntentHandler stripe body).outcome.status = 200 := by
  obtain ⟨hpa, hpc, hsec, hid⟩ := hecho _ _ hpi
  have hmain : (createPaymentIntentHandler stripe body).outcome =
      CPIOutcome.success pi.client_secret pi.id a (lowerJS s) pi.status := by
    rw [handler_currency_stage stripe body s a hreq hamt hpos hcur]
    rw [if_neg (by rw [hallow]; simp), if_neg (by rw [hemail]; simp)]
    unfold afterValidation
    simp only [hcust, hpi]
    rw [hpa, hpc]
    rfl
  refine ⟨hmain, hsec, hid, ?_⟩
  rw [hmain]
  rfl

/-- C6 amended witness: the valid usd request against the conforming
processor. -/
theorem valid_request_success_response_witness :
    (createPaymentIntentHandler idealStripe bodyValidUsd).outcome =
      CPIOutcome.success "pi_test_1_secret_x" "pi_test_1" 1000 "usd"
        "requires_payment_method" ∧
    ("pi_test_1_secret_x" : String) ≠ "" ∧ ("pi_test_1" : String) ≠ "" ∧
    (createPaymentIntentHandler idealStripe bodyValidUsd).outcome.status = 200 := by
  have h := valid_request_success_response idealStripe bodyValidUsd "usd" 1000
    { id := "cus_test_1" }
    { id := "pi_test_1", client_secret := "pi_test_1_secret_x", amount := 1000
      currency := "usd", status := "requires_payment_method" }
    (by decide) (by decide) (by decide) rfl (by decide) (by decide) rfl rfl
    idealStripe_echoes
  exact h

end StripeServer
